import Mathlib

/-!
Verification of the FP6 quantization operator bindings (`torchao/ops.py`).

The repository's Python layer registers, for each custom operator, a
"fake" (meta/abstract) implementation that validates ranks, dtypes and
cross-argument dimensions with `torch._check` and then returns an empty
tensor of the resulting shape/dtype/device.  We embed a tensor as its
metadata (shape, dtype, device) — the fake implementations never look at
element data — and each fake implementation as a function returning
`Except String Tensor`, where each `torch._check(cond, msg)` becomes a
guard that fails with `msg`.

The numerical semantics of the external GEMM kernel (not part of the
Python layer) is modelled separately from the specification, over exact
rational arithmetic.
-/

/-- The `torch.dtype`s that occur in `torchao/ops.py` and its tests. -/
inductive DType
  | float16
  | float32
  | int32
  | int64
  | uint8
  deriving DecidableEq, Repr

/-- A tensor as the fake implementations see it: metadata only.
`shape` is the list of dimension sizes, so `shape.length` is `t.dim()`. -/
structure Tensor where
  shape : List Nat
  dtype : DType
  device : String
  deriving DecidableEq, Repr

/-- `torch._check(cond, msg)` followed by the rest of the computation:
if the condition holds continue with `k`, otherwise abort with `msg`. -/
def tcheck (cond : Prop) [Decidable cond] (msg : String)
    (k : Except String Tensor) : Except String Tensor :=
  if cond then k else Except.error msg

/-- `torch.empty_like(t)`: a fresh tensor with the same shape, dtype and
device as `t` (contents are irrelevant in the metadata model). -/
def empty_like (t : Tensor) : Tensor :=
  { shape := t.shape, dtype := t.dtype, device := t.device }

/-- Size in bytes of one element of each dtype. -/
def dtypeBytes : DType → Nat
  | DType.float16 => 2
  | DType.float32 => 4
  | DType.int32 => 4
  | DType.int64 => 8
  | DType.uint8 => 1

/-- Total byte size of a tensor's buffer: product of the dimensions times
the element size. -/
def numBytes (t : Tensor) : Nat :=
  t.shape.foldr (fun a b => a * b) 1 * dtypeBytes t.dtype

/-- Fake implementation of `torchao::prepack_fp6_weight`
(`ops.py` lines 29–32): checks that the weight is 2-D and returns
`torch.empty_like(fp6_weight)`. -/
def prepack_fp6_weight (fp6_weight : Tensor) : Except String Tensor :=
  tcheck (fp6_weight.shape.length = 2) "weight should be a 2d tensor" <|
  Except.ok (empty_like fp6_weight)

/-- Fake implementation of `torchao::fp16_to_fp6` (`ops.py` lines 42–48):
checks 2-D, FP16, second dimension divisible by 4, and returns an empty
uint8 tensor of shape (M, K * 6 // 8) on the input's device. -/
def fp16_to_fp6 (fp16_tensor : Tensor) : Except String Tensor :=
  tcheck (fp16_tensor.shape.length = 2) "weight should be a 2d tensor" <|
  tcheck (fp16_tensor.dtype = DType.float16) "weight must be FP16" <|
  tcheck (fp16_tensor.shape.getD 1 0 % 4 = 0) "second dimension must be a multiple of 4" <|
  Except.ok { shape := [fp16_tensor.shape.getD 0 0, fp16_tensor.shape.getD 1 0 * 6 / 8],
              dtype := DType.uint8, device := fp16_tensor.device }

set_option linter.unusedVariables false in
/-- Fake implementation of `torchao::fp16act_fp6weight_linear`
(`ops.py` lines 67–81).  The Python check `IC / 16 * 3 == _weights.shape[1]`
uses true (float) division, which is exact for machine-size shapes, so it
is modelled as the integer relation `3 * IC = 16 * _weights.shape[1]`.
The `splitK` argument is accepted but never inspected, exactly as in the
source. -/
def fp16act_fp6weight_linear (in_feats weights scales : Tensor)
    (splitK : Int) : Except String Tensor :=
  tcheck (in_feats.shape.length = 2) "input should be a 2d tensor" <|
  tcheck (in_feats.dtype = DType.float16) "weight must be FP16" <|
  tcheck (weights.shape.length = 2) "weight should be a 2d tensor" <|
  tcheck (weights.dtype = DType.int32) "weight must be INT32" <|
  tcheck (scales.shape.length = 1) "scale should be a 2d tensor" <|
  tcheck (scales.dtype = DType.float16) "scale must be FP16" <|
  tcheck (3 * in_feats.shape.getD 1 0 = 16 * weights.shape.getD 1 0) "Dimensions mismatched" <|
  tcheck (weights.shape.getD 0 0 = scales.shape.getD 0 0) "Dimensions mismatched" <|
  Except.ok { shape := [in_feats.shape.getD 0 0, weights.shape.getD 0 0],
              dtype := in_feats.dtype, device := in_feats.device }

/-- Fake implementation of `torchao::fp6_weight_dequant`
(`ops.py` lines 88–98): rank/dtype checks, `OC == fp16_scale.shape[0]`,
then `fp16_scale.new_empty((OC, _IC * 16 // 3))` — note the floor
division and the absence of any divisibility check on `_IC`. -/
def fp6_weight_dequant (fp6_tensor fp16_scale : Tensor) : Except String Tensor :=
  tcheck (fp6_tensor.shape.length = 2) "weight should be a 2d tensor" <|
  tcheck (fp6_tensor.dtype = DType.int32) "weight must be INT32" <|
  tcheck (fp16_scale.shape.length = 1) "scale should be a 2d tensor" <|
  tcheck (fp16_scale.dtype = DType.float16) "scale must be FP16" <|
  tcheck (fp6_tensor.shape.getD 0 0 = fp16_scale.shape.getD 0 0) "Dimensions mismatched" <|
  Except.ok { shape := [fp6_tensor.shape.getD 0 0, fp6_tensor.shape.getD 1 0 * 16 / 3],
              dtype := fp16_scale.dtype, device := fp16_scale.device }

/-- C1: for every 2-D float16 tensor of shape (M, K) with K divisible by 4,
`fp16_to_fp6` produces a uint8 output of shape (M, K * 6 / 8), whose buffer
occupies M * (K * 6 / 8) bytes. -/
theorem fp16_to_fp6_output_shape (t : Tensor) (M K : Nat)
    (h1 : t.shape = [M, K]) (h2 : t.dtype = DType.float16) (h3 : K % 4 = 0) :
    fp16_to_fp6 t =
      Except.ok { shape := [M, K * 6 / 8], dtype := DType.uint8, device := t.device } ∧
    numBytes { shape := [M, K * 6 / 8], dtype := DType.uint8, device := t.device } =
      M * (K * 6 / 8) := by
  constructor
  · simp [fp16_to_fp6, tcheck, h1, h2, h3]
  · simp [numBytes, dtypeBytes]

/-- Witness for C1: a (256, 256) float16 input yields a (256, 192) uint8
tensor, a buffer of exactly 49152 bytes. -/
theorem fp16_to_fp6_output_shape_witness :
    (fp16_to_fp6 { shape := [256, 256], dtype := DType.float16, device := "cuda" } =
        Except.ok { shape := [256, 256 * 6 / 8], dtype := DType.uint8, device := "cuda" } ∧
      numBytes { shape := [256, 256 * 6 / 8], dtype := DType.uint8, device := "cuda" } =
        256 * (256 * 6 / 8)) ∧
    256 * (256 * 6 / 8) = 49152 :=
  ⟨fp16_to_fp6_output_shape
      { shape := [256, 256], dtype := DType.float16, device := "cuda" }
      256 256 rfl rfl (by decide),
    by decide⟩

/-- Counterexample for C6: a 2-D int32 input with 5 columns — a row byte
length of 20, which is not of the form InChannels / 16 * 3 * 4 for any
InChannels — is accepted by `prepack_fp6_weight`, which returns an
`empty_like` tensor instead of failing with a dimension-mismatch error. -/
theorem prepack_fp6_weight_no_row_length_check :
    prepack_fp6_weight { shape := [1, 5], dtype := DType.int32, device := "cpu" } =
      Except.ok { shape := [1, 5], dtype := DType.int32, device := "cpu" } := rfl

/-- C6 (amended): `prepack_fp6_weight` validates only that the input is
2-D; every 2-D input succeeds, whatever its row byte-length, and a
non-2-D input fails with the rank error. -/
theorem prepack_fp6_weight_only_rank_checked (t u : Tensor)
    (h2 : t.shape.length = 2) (hu : u.shape.length ≠ 2) :
    (∃ out, prepack_fp6_weight t = Except.ok out) ∧
    prepack_fp6_weight u = Except.error "weight should be a 2d tensor" := by
  constructor
  · exact ⟨empty_like t, by simp [prepack_fp6_weight, tcheck, h2]⟩
  · simp [prepack_fp6_weight, tcheck, hu]

/-- Witness for the amended C6: the (1, 5)-shaped int32 input above is
2-D and succeeds; a 1-D input is rejected. -/
theorem prepack_fp6_weight_only_rank_checked_witness :
    (∃ out,
        prepack_fp6_weight { shape := [1, 5], dtype := DType.int32, device := "cpu" } =
          Except.ok out) ∧
    prepack_fp6_weight { shape := [4], dtype := DType.int32, device := "cpu" } =
      Except.error "weight should be a 2d tensor" :=
  prepack_fp6_weight_only_rank_checked
    { shape := [1, 5], dtype := DType.int32, device := "cpu" }
    { shape := [4], dtype := DType.int32, device := "cpu" }
    rfl (by decide)

/-- C10: for every 2-D input tensor of any dtype and shape,
`prepack_fp6_weight` returns a tensor with exactly the same shape, dtype
and device as its input (a fresh `empty_like` allocation); the rank-2
check is the only validation performed. -/
theorem prepack_fp6_weight_empty_like (t : Tensor) (h : t.shape.length = 2) :
    prepack_fp6_weight t =
      Except.ok { shape := t.shape, dtype := t.dtype, device := t.device } := by
  simp [prepack_fp6_weight, tcheck, empty_like, h]

/-- Witness for C10: a float32 input — a dtype the real packing kernel
would never see — of shape (3, 7) passes through with shape, dtype and
device preserved. -/
theorem prepack_fp6_weight_empty_like_witness :
    prepack_fp6_weight { shape := [3, 7], dtype := DType.float32, device := "cuda" } =
      Except.ok { shape := [3, 7], dtype := DType.float32, device := "cuda" } :=
  prepack_fp6_weight_empty_like
    { shape := [3, 7], dtype := DType.float32, device := "cuda" } rfl

/-- C2: whenever the scale vector's length differs from the packed
weight's row count, `fp6_weight_dequant` and `fp16act_fp6weight_linear`
never succeed, and — once the per-argument rank/dtype checks pass — they
fail with the "Dimensions mismatched" error. -/
theorem scale_length_mismatch_rejected (act w s : Tensor) (splitK : Int)
    (hmm : w.shape.getD 0 0 ≠ s.shape.getD 0 0) :
    (∀ out, fp6_weight_dequant w s ≠ Except.ok out) ∧
    (∀ out, fp16act_fp6weight_linear act w s splitK ≠ Except.ok out) ∧
    (w.shape.length = 2 → w.dtype = DType.int32 →
      s.shape.length = 1 → s.dtype = DType.float16 →
      fp6_weight_dequant w s = Except.error "Dimensions mismatched") ∧
    (act.shape.length = 2 → act.dtype = DType.float16 →
      w.shape.length = 2 → w.dtype = DType.int32 →
      s.shape.length = 1 → s.dtype = DType.float16 →
      fp16act_fp6weight_linear act w s splitK = Except.error "Dimensions mismatched") := by
  refine ⟨?_, ?_, ?_, ?_⟩
  · intro out h
    unfold fp6_weight_dequant tcheck at h
    split_ifs at h
  · intro out h
    unfold fp16act_fp6weight_linear tcheck at h
    split_ifs at h
  · intro h1 h2 h3 h4
    simp [fp6_weight_dequant, tcheck, h1, h2, h3, h4]
    simpa [h1, h3] using hmm
  · intro h1 h2 h3 h4 h5 h6
    simp [fp16act_fp6weight_linear, tcheck, h1, h2, h3, h4, h5, h6]
    exact fun _ => by simpa [h3, h5] using hmm

/-- Witness for C2: a packed weight with 2 rows against a scale of
length 3 is rejected by both operations with the dimension-mismatch
error. -/
theorem scale_length_mismatch_rejected_witness :
    fp6_weight_dequant { shape := [2, 3], dtype := DType.int32, device := "cpu" }
        { shape := [3], dtype := DType.float16, device := "cpu" } =
      Except.error "Dimensions mismatched" ∧
    fp16act_fp6weight_linear { shape := [1, 16], dtype := DType.float16, device := "cpu" }
        { shape := [2, 3], dtype := DType.int32, device := "cpu" }
        { shape := [3], dtype := DType.float16, device := "cpu" } 1 =
      Except.error "Dimensions mismatched" := by
  have h := scale_length_mismatch_rejected
    { shape := [1, 16], dtype := DType.float16, device := "cpu" }
    { shape := [2, 3], dtype := DType.int32, device := "cpu" }
    { shape := [3], dtype := DType.float16, device := "cpu" } 1 (by decide)
  exact ⟨h.2.2.1 rfl rfl rfl rfl, h.2.2.2 rfl rfl rfl rfl rfl rfl⟩

/-- Counterexample for C3: a packed weight whose row word-count is 4 —
not a multiple of 3 — is not rejected by `fp6_weight_dequant`: the call
succeeds and silently truncates the column count to 4 * 16 / 3 = 21. -/
theorem fp6_weight_dequant_truncates :
    fp6_weight_dequant { shape := [1, 4], dtype := DType.int32, device := "cpu" }
        { shape := [1], dtype := DType.float16, device := "cpu" } =
      Except.ok { shape := [1, 21], dtype := DType.float16, device := "cpu" } := rfl

/-- C3 (amended): `fp6_weight_dequant` performs no divisibility check on
the packed row word-count: every 2-D int32 weight whose row count
matches the float16 scale's length succeeds, producing
floor(word-count * 16 / 3) columns, whether or not the word-count is a
multiple of 3. -/
theorem fp6_weight_dequant_no_word_count_check (w s : Tensor)
    (h1 : w.shape.length = 2) (h2 : w.dtype = DType.int32)
    (h3 : s.shape.length = 1) (h4 : s.dtype = DType.float16)
    (h5 : w.shape.getD 0 0 = s.shape.getD 0 0) :
    fp6_weight_dequant w s =
      Except.ok { shape := [w.shape.getD 0 0, w.shape.getD 1 0 * 16 / 3],
                  dtype := s.dtype, device := s.device } := by
  simp [fp6_weight_dequant, tcheck, h1, h2, h3, h4]
  simpa [h1, h3] using h5

/-- Witness for the amended C3: word-count 5 yields 5 * 16 / 3 = 26
columns without any error. -/
theorem fp6_weight_dequant_no_word_count_check_witness :
    fp6_weight_dequant { shape := [2, 5], dtype := DType.int32, device := "cpu" }
        { shape := [2], dtype := DType.float16, device := "cpu" } =
      Except.ok { shape := [2, 26], dtype := DType.float16, device := "cpu" } :=
  fp6_weight_dequant_no_word_count_check
    { shape := [2, 5], dtype := DType.int32, device := "cpu" }
    { shape := [2], dtype := DType.float16, device := "cpu" }
    rfl rfl rfl rfl rfl

/-- C4: `fp16act_fp6weight_linear` succeeds only when the activation's
second dimension IC and the packed weight's column count W1 satisfy the
packing relation 3 * IC = 16 * W1 (i.e. W1 = IC / 16 * 3 in exact
arithmetic); when the relation fails and the rank/dtype checks pass, the
call fails with the "Dimensions mismatched" error. -/
theorem fp16act_fp6weight_linear_ic_relation (act w s : Tensor) (splitK : Int) :
    (∀ out, fp16act_fp6weight_linear act w s splitK = Except.ok out →
      3 * act.shape.getD 1 0 = 16 * w.shape.getD 1 0) ∧
    (act.shape.length = 2 → act.dtype = DType.float16 →
      w.shape.length = 2 → w.dtype = DType.int32 →
      s.shape.length = 1 → s.dtype = DType.float16 →
      3 * act.shape.getD 1 0 ≠ 16 * w.shape.getD 1 0 →
      fp16act_fp6weight_linear act w s splitK = Except.error "Dimensions mismatched") := by
  constructor
  · intro out h
    unfold fp16act_fp6weight_linear tcheck at h
    split_ifs at h
    simp_all
  · intro h1 h2 h3 h4 h5 h6 hic
    simp [fp16act_fp6weight_linear, tcheck, h1, h2, h3, h4, h5, h6]
    exact fun hc => absurd (by simpa [h1, h3] using hc) hic

/-- Witness for C4: an activation with IC = 8 against a weight with 3
words per row (3 * 8 = 24 ≠ 48 = 16 * 3) is rejected with the
dimension-mismatch error. -/
theorem fp16act_fp6weight_linear_ic_relation_witness :
    fp16act_fp6weight_linear { shape := [1, 8], dtype := DType.float16, device := "cpu" }
        { shape := [2, 3], dtype := DType.int32, device := "cpu" }
        { shape := [2], dtype := DType.float16, device := "cpu" } 1 =
      Except.error "Dimensions mismatched" :=
  (fp16act_fp6weight_linear_ic_relation
      { shape := [1, 8], dtype := DType.float16, device := "cpu" }
      { shape := [2, 3], dtype := DType.int32, device := "cpu" }
      { shape := [2], dtype := DType.float16, device := "cpu" } 1).2
    rfl rfl rfl rfl rfl rfl (by decide)

/-- Counterexample for C5: a call with splitK = 0 (< 1) and otherwise
valid arguments is not rejected: `fp16act_fp6weight_linear` succeeds and
returns the (BS, OC) output. -/
theorem fp16act_fp6weight_linear_splitK_zero_accepted :
    fp16act_fp6weight_linear { shape := [1, 16], dtype := DType.float16, device := "cpu" }
        { shape := [2, 3], dtype := DType.int32, device := "cpu" }
        { shape := [2], dtype := DType.float16, device := "cpu" } 0 =
      Except.ok { shape := [1, 2], dtype := DType.float16, device := "cpu" } := rfl

/-- C5 (amended): `fp16act_fp6weight_linear` never inspects `splitK`:
the result is identical for every pair of splitK values, so splitK < 1
is not rejected. -/
theorem fp16act_fp6weight_linear_ignores_splitK
    (act w s : Tensor) (splitK splitK' : Int) :
    fp16act_fp6weight_linear act w s splitK =
      fp16act_fp6weight_linear act w s splitK' := rfl

/-- C7: for every valid call to `fp6_weight_dequant` — packed weight of
shape (OC, 3 * k) in an int32 container, float16 scale of length OC —
the result has shape (OC, 16 * k), i.e. (OC, IC) with IC = 16 * k the
packed word-count times 16 / 3, and its dtype is the scale's float16
type, not the packed container's integer type. -/
theorem fp6_weight_dequant_output_shape (w s : Tensor) (OC k : Nat)
    (hw : w.shape = [OC, 3 * k]) (hwd : w.dtype = DType.int32)
    (hs : s.shape = [OC]) (hsd : s.dtype = DType.float16) :
    fp6_weight_dequant w s =
      Except.ok { shape := [OC, 16 * k], dtype := DType.float16, device := s.device } := by
  have hdiv : 3 * k * 16 / 3 = 16 * k := by
    rw [Nat.mul_assoc, Nat.mul_div_cancel_left _ (by norm_num : 0 < 3), Nat.mul_comm]
  simp [fp6_weight_dequant, tcheck, hw, hwd, hs, hsd, hdiv]

/-- Witness for C7: a (4, 48)-word int32 weight (OC = 4, IC = 256) with
a length-4 float16 scale dequantizes to a (4, 256) float16 tensor. -/
theorem fp6_weight_dequant_output_shape_witness :
    fp6_weight_dequant { shape := [4, 48], dtype := DType.int32, device := "cpu" }
        { shape := [4], dtype := DType.float16, device := "cpu" } =
      Except.ok { shape := [4, 256], dtype := DType.float16, device := "cpu" } :=
  fp6_weight_dequant_output_shape
    { shape := [4, 48], dtype := DType.int32, device := "cpu" }
    { shape := [4], dtype := DType.float16, device := "cpu" }
    4 16 rfl rfl rfl rfl

/-- C8: for every valid call to `fp16act_fp6weight_linear` — activation
(BS, IC) float16, weight (OC, W1) int32 with 3 * IC = 16 * W1, scale
(OC,) float16 — the output is 2-D of shape (BS, OC) with the
activation's dtype and device. -/
theorem fp16act_fp6weight_linear_output_shape
    (act w s : Tensor) (splitK : Int) (BS IC OC W1 : Nat)
    (ha : act.shape = [BS, IC]) (had : act.dtype = DType.float16)
    (hw : w.shape = [OC, W1]) (hwd : w.dtype = DType.int32)
    (hs : s.shape = [OC]) (hsd : s.dtype = DType.float16)
    (hic : 3 * IC = 16 * W1) :
    fp16act_fp6weight_linear act w s splitK =
      Except.ok { shape := [BS, OC], dtype := act.dtype, device := act.device } := by
  simp [fp16act_fp6weight_linear, tcheck, ha, had, hw, hwd, hs, hsd, hic]

/-- Witness for C8: activation (2, 32), weight (5, 6), scale (5,),
splitK = 2 produce a (2, 5) float16 output. -/
theorem fp16act_fp6weight_linear_output_shape_witness :
    fp16act_fp6weight_linear { shape := [2, 32], dtype := DType.float16, device := "cuda" }
        { shape := [5, 6], dtype := DType.int32, device := "cuda" }
        { shape := [5], dtype := DType.float16, device := "cuda" } 2 =
      Except.ok { shape := [2, 5], dtype := DType.float16, device := "cuda" } :=
  fp16act_fp6weight_linear_output_shape
    { shape := [2, 32], dtype := DType.float16, device := "cuda" }
    { shape := [5, 6], dtype := DType.int32, device := "cuda" }
    { shape := [5], dtype := DType.float16, device := "cuda" }
    2 2 32 5 6 rfl rfl rfl rfl rfl rfl (by decide)

/-!
The numerical contract of the linear kernel (§4.4/§4.5 of the design).
The GEMM kernel itself is an external collaborator, not part of the
Python layer, so its exact-arithmetic semantics is modelled from the
specification over the rationals.
-/

/-- Modelled from the spec: decoding of one 6-bit FP6 code (the codec of
§4.1, absent from the Python layer) — 1 sign bit, 3 exponent bits with
bias 3, 2 mantissa bits; exponent 0 denotes subnormals, so the magnitude
range is [0.0625, 28] plus zero. -/
def fp6Decode (code : Nat) : ℚ :=
  let s := code / 32 % 2
  let e := code / 4 % 8
  let m := code % 4
  let mag : ℚ := if e = 0 then (m : ℚ) / 16 else (2 : ℚ) ^ e / 8 * (1 + (m : ℚ) / 4)
  if s = 1 then -mag else mag

/-- Modelled from the spec: bit k (most-significant-bit first) of a
packed row carried in 32-bit storage words (§3, §4.2: codes concatenated
bit-for-bit with no gaps). -/
def rowBit (row : List Nat) (k : Nat) : Nat :=
  row.getD (k / 32) 0 / 2 ^ (31 - k % 32) % 2

/-- Modelled from the spec: the i-th 6-bit code of a packed row — six
consecutive bits of the stream, most-significant-bit first (§4.2, the
unpacker absent from the Python layer). -/
def rowCode (row : List Nat) (i : Nat) : Nat :=
  32 * rowBit row (6 * i) + 16 * rowBit row (6 * i + 1) + 8 * rowBit row (6 * i + 2) +
    4 * rowBit row (6 * i + 3) + 2 * rowBit row (6 * i + 4) + rowBit row (6 * i + 5)

/-- Modelled from the spec: entry (o, i) of the dequantized weight
(§4.4: unpack the 6-bit code, decode it, multiply by the output
channel's scale). -/
def dequantEntry (w : List (List Nat)) (scale : List ℚ) (o i : Nat) : ℚ :=
  fp6Decode (rowCode (w.getD o []) i) * scale.getD o 0

/-- Modelled from the spec: entry (b, o) of the reference result
`activation @ dequant(packedWeight, scale).T` computed naively over the
full reduction dimension IC (§4.5). -/
def matmulDequantT (act : List (List ℚ)) (w : List (List Nat)) (scale : List ℚ)
    (IC b o : Nat) : ℚ :=
  ∑ i ∈ Finset.range IC, (act.getD b []).getD i 0 * dequantEntry w scale o i

/-- Modelled from the spec: entry (b, o) of the split-K linear kernel
(§4.5): the reduction dimension is partitioned into `splitK` independent
partial sums (here: the residue classes of the index modulo splitK),
each accumulated separately and then reduced, without the dequantized
weight ever being materialized as a whole. -/
def linearEntry (act : List (List ℚ)) (w : List (List Nat)) (scale : List ℚ)
    (splitK IC b o : Nat) : ℚ :=
  ∑ p ∈ Finset.range splitK, ∑ i ∈ Finset.range IC,
    if i % splitK = p then (act.getD b []).getD i 0 * dequantEntry w scale o i else 0

/-- C9: for every activation, packed weight, scale and splitK ≥ 1, each
entry of the split-K linear result equals the corresponding entry of
`activation @ dequant(packedWeight, scale).T`: in exact arithmetic the
split-K partitioning has no semantic effect, so the error against the
dequantize-then-matmul reference is 0, below the 1% tolerance. -/
theorem linear_matches_dequant_matmul (act : List (List ℚ)) (w : List (List Nat))
    (scale : List ℚ) (splitK IC b o : Nat) (hk : 1 ≤ splitK) :
    linearEntry act w scale splitK IC b o = matmulDequantT act w scale IC b o ∧
    |linearEntry act w scale splitK IC b o - matmulDequantT act w scale IC b o| <
      1 / 100 := by
  have h : linearEntry act w scale splitK IC b o = matmulDequantT act w scale IC b o := by
    unfold linearEntry matmulDequantT
    rw [Finset.sum_comm]
    refine Finset.sum_congr rfl fun i _ => ?_
    simp [Finset.sum_ite_eq, Finset.mem_range, Nat.mod_lt i hk]
  exact ⟨h, by rw [h]; simp⟩

/-- Witness for C9: a 1×2 activation against a one-word packed row with
splitK = 2 — the split-K result and the reference agree exactly. -/
theorem linear_matches_dequant_matmul_witness :
    linearEntry [[1, 2]] [[3000000000]] [2] 2 2 0 0 =
      matmulDequantT [[1, 2]] [[3000000000]] [2] 2 0 0 ∧
    |linearEntry [[1, 2]] [[3000000000]] [2] 2 2 0 0 -
        matmulDequantT [[1, 2]] [[3000000000]] [2] 2 0 0| < 1 / 100 :=
  linear_matches_dequant_matmul [[1, 2]] [[3000000000]] [2] 2 2 0 0 (by decide)
